import Mathlib

/-!
Verification of the TileDB C++ schema API (`src/core/include/cpp_api/tdbpp_arrayschema.h`).

The repository sample contains only the header declaring the `tdb::ArraySchema`
class; the member-function bodies (in the companion `.cc` file) and the
underlying C engine (`tiledb_array_schema_*`) are part of the repository but
missing from the sample, so the behaviour of the mutators, `check`, `create`
and `load` is modelled from the specification, while the interface shape and
the inline constructor logic follow the header.
-/

/-- Compression codecs carried by a `Compressor` descriptor. -/
inductive Codec
  | NONE | GZIP | ZSTD | LZ4 | RLE | BZIP2 | DOUBLE_DELTA
deriving DecidableEq, Repr

/-- Modelled from the spec: a `Compressor` is a codec + level pair, a pure
value type with structural equality. -/
structure Compressor where
  codec : Codec
  level : Int
deriving DecidableEq, Repr

/-- Cell/dimension datatypes; the value encoding is opaque at this layer, so a
small representative enum suffices. -/
inductive Datatype
  | INT32 | INT64 | FLOAT64 | CHAR
deriving DecidableEq, Repr

/-- Modelled from the spec: a `Dimension` is a named coordinate axis with a
datatype, a `[low, high]` range and an optional tile extent.  Range values are
modelled as integers since their encoding is opaque here. -/
structure Dimension where
  name : String
  datatype : Datatype
  lo : Int
  hi : Int
  tile_extent : Option Int
deriving DecidableEq, Repr

/-- Modelled from the spec: a `Domain` is the ordered sequence of dimensions
forming the coordinate space. -/
structure Domain where
  dims : List Dimension
deriving DecidableEq, Repr

/-- Sentinel for variable-length cells (`TILEDB_VAR_NUM` in the C API). -/
def TILEDB_VAR_NUM : Nat := 2 ^ 32 - 1

/-- Modelled from the spec: an `Attribute` is a named, typed cell field with a
cell-value count and its own compressor. -/
structure Attribute where
  name : String
  datatype : Datatype
  cell_val_num : Nat
  compressor : Compressor
deriving DecidableEq, Repr

/-- Array kind, mirroring `tiledb_array_type_t` from the header. -/
inductive tiledb_array_type_t
  | TILEDB_DENSE | TILEDB_SPARSE
deriving DecidableEq, Repr

/-- Layouts are values of the C enum `tiledb_layout_t`; modelling them as raw
naturals keeps out-of-range values expressible, which the `set_order`
enum-range check needs. -/
abbrev tiledb_layout_t := Nat

/-- `TILEDB_ROW_MAJOR` layout enum value. -/
def TILEDB_ROW_MAJOR : tiledb_layout_t := 0

/-- `TILEDB_COL_MAJOR` layout enum value. -/
def TILEDB_COL_MAJOR : tiledb_layout_t := 1

/-- `TILEDB_GLOBAL_ORDER` layout enum value. -/
def TILEDB_GLOBAL_ORDER : tiledb_layout_t := 2

/-- `TILEDB_UNORDERED` layout enum value. -/
def TILEDB_UNORDERED : tiledb_layout_t := 3

/-- A layout value is valid when it falls inside the enum range. -/
def layoutValid (l : tiledb_layout_t) : Bool := l < 4

/-- The error kinds of the schema layer (spec section 7). -/
inductive SchemaError
  | DomainAlreadySet | MissingDomain | MissingTileExtent | DuplicateDimensionName
  | DuplicateAttributeName | InvalidAttributeName | InvalidCellValNum
  | InvalidCapacity | InvalidLayout | KvConflict | EngineError
deriving DecidableEq, Repr

/-- Modelled from the spec: `Domain::validate(array_type)` — for `DENSE`
arrays every dimension must carry a tile extent (`MissingTileExtent`
otherwise); for `SPARSE` arrays extents are optional. -/
def Domain.validate (d : Domain) (t : tiledb_array_type_t) : Except SchemaError Unit :=
  match t with
  | .TILEDB_DENSE =>
      if d.dims.any (fun dim => dim.tile_extent.isNone)
      then .error .MissingTileExtent else .ok ()
  | .TILEDB_SPARSE => .ok ()

/-- A list of names is duplicate-free. -/
def namesUnique : List String → Bool
  | [] => true
  | n :: ns => !(ns.contains n) && namesUnique ns

/-- The two reserved attribute names of the key-value convention
(`key`/`value` equivalents; the concrete strings model the engine's fixed
reserved-name convention). -/
def reservedKvNames : List String := ["__key", "__value"]

/-- Modelled from the spec: the reserved key attribute injected by `set_kv`. -/
def keyAttribute : Attribute :=
  { name := "__key", datatype := .CHAR, cell_val_num := TILEDB_VAR_NUM,
    compressor := { codec := .NONE, level := -1 } }

/-- Modelled from the spec: the reserved value attribute injected by `set_kv`. -/
def valueAttribute : Attribute :=
  { name := "__value", datatype := .CHAR, cell_val_num := TILEDB_VAR_NUM,
    compressor := { codec := .NONE, level := -1 } }

/-- The attribute set matches the reserved key/value convention: every
reserved name is present and no attribute carries a non-reserved name. -/
def kvConsistent (attrs : List Attribute) : Bool :=
  reservedKvNames.all (fun n => (attrs.map Attribute.name).contains n) &&
  attrs.all (fun a => reservedKvNames.contains a.name)

/-- The in-memory field set of `tdb::ArraySchema` (header lines 54-245):
array kind, domain, attribute mapping, capacity, tile/cell orders, coordinate
and offset compressors and the key-value flag.  The attribute mapping is
modelled as a list whose name uniqueness the mutators maintain. -/
structure ArraySchema where
  array_type : tiledb_array_type_t
  domain : Domain
  attributes : List Attribute
  capacity : Nat
  tile_order : tiledb_layout_t
  cell_order : tiledb_layout_t
  coord_compressor : Compressor
  offset_compressor : Compressor
  is_kv : Bool
deriving DecidableEq, Repr

/-- Modelled from the spec: a freshly built schema in the building phase —
empty domain, no attributes, default orders and compressors, not key-value. -/
def freshSchema : ArraySchema :=
  { array_type := .TILEDB_DENSE, domain := { dims := [] }, attributes := [],
    capacity := 10000, tile_order := TILEDB_ROW_MAJOR,
    cell_order := TILEDB_ROW_MAJOR,
    coord_compressor := { codec := .ZSTD, level := -1 },
    offset_compressor := { codec := .ZSTD, level := -1 }, is_kv := false }

/-- `ArraySchema::set_type`: stores the array kind; no validation until
`check` (header line 114; body delegated to the engine, modelled from the
spec). -/
def ArraySchema.set_type (f : ArraySchema) (t : tiledb_array_type_t) : ArraySchema :=
  { f with array_type := t }

/-- `ArraySchema::set_capacity`: stores the capacity; validated against the
array kind only at `check` (modelled from the spec). -/
def ArraySchema.set_capacity (f : ArraySchema) (c : Nat) : ArraySchema :=
  { f with capacity := c }

/-- `ArraySchema::set_tile_order`: stores the tile layout enum (modelled from
the spec). -/
def ArraySchema.set_tile_order (f : ArraySchema) (l : tiledb_layout_t) : ArraySchema :=
  { f with tile_order := l }

/-- `ArraySchema::set_cell_order`: stores the cell layout enum (modelled from
the spec). -/
def ArraySchema.set_cell_order (f : ArraySchema) (l : tiledb_layout_t) : ArraySchema :=
  { f with cell_order := l }

/-- `ArraySchema::set_order({tile, cell})`: modelled from the spec — sets both
layouts atomically; if either value is outside the enum range the call fails
with `InvalidLayout` and the schema is unchanged (all-or-nothing). -/
def ArraySchema.set_order (f : ArraySchema) (p : tiledb_layout_t × tiledb_layout_t) :
    Except SchemaError ArraySchema :=
  if layoutValid p.1 && layoutValid p.2
  then .ok { f with tile_order := p.1, cell_order := p.2 }
  else .error .InvalidLayout

/-- `ArraySchema::set_coord_compressor` (modelled from the spec). -/
def ArraySchema.set_coord_compressor (f : ArraySchema) (c : Compressor) : ArraySchema :=
  { f with coord_compressor := c }

/-- `ArraySchema::set_offset_compressor` (modelled from the spec). -/
def ArraySchema.set_offset_compressor (f : ArraySchema) (c : Compressor) : ArraySchema :=
  { f with offset_compressor := c }

/-- `ArraySchema::set_domain`: modelled from the spec — fails with
`DomainAlreadySet` when a non-empty domain already exists (set-once
semantics); otherwise stores the domain by value. -/
def ArraySchema.set_domain (f : ArraySchema) (d : Domain) : Except SchemaError ArraySchema :=
  if f.domain.dims.isEmpty
  then .ok { f with domain := d }
  else .error .DomainAlreadySet

/-- `ArraySchema::add_attribute`: modelled from the spec — fails with
`DuplicateAttributeName` when the name collides with an existing attribute;
on a key-value schema a non-reserved name fails with `KvConflict`; otherwise
the attribute is appended to the mapping. -/
def ArraySchema.add_attribute (f : ArraySchema) (a : Attribute) : Except SchemaError ArraySchema :=
  if (f.attributes.map Attribute.name).contains a.name
  then .error .DuplicateAttributeName
  else if f.is_kv && !(reservedKvNames.contains a.name)
  then .error .KvConflict
  else .ok { f with attributes := f.attributes ++ [a] }

/-- `ArraySchema::set_kv`: modelled from the spec — fails with `KvConflict`
when custom (non-reserved) attributes already exist; otherwise marks the
schema key-value and injects the two reserved attributes when absent. -/
def ArraySchema.set_kv (f : ArraySchema) : Except SchemaError ArraySchema :=
  if f.attributes.any (fun a => !(reservedKvNames.contains a.name))
  then .error .KvConflict
  else .ok { f with
      is_kv := true,
      attributes := f.attributes ++
        ([keyAttribute, valueAttribute].filter
          (fun r => !((f.attributes.map Attribute.name).contains r.name))) }

/-- `ArraySchema::is_kv` (header line 213; body modelled from the spec). -/
def ArraySchema.is_kv' (f : ArraySchema) : Bool := f.is_kv

/-- `ArraySchema::check`: modelled from the spec — runs, in order, domain
presence/non-emptiness, `domain.validate(array_type)`, attribute name
uniqueness, the sparse capacity rule, layout enum validity and key-value
consistency, failing on the first violated invariant with its specific error
kind; succeeds otherwise with no mutation of the schema. -/
def ArraySchema.check (f : ArraySchema) : Except SchemaError Unit :=
  if f.domain.dims.isEmpty then .error .MissingDomain
  else match f.domain.validate f.array_type with
  | .error e => .error e
  | .ok () =>
    if !namesUnique (f.attributes.map Attribute.name)
    then .error .DuplicateAttributeName
    else if f.array_type = .TILEDB_SPARSE && f.capacity = 0
    then .error .InvalidCapacity
    else if !(layoutValid f.tile_order && layoutValid f.cell_order)
    then .error .InvalidLayout
    else if f.is_kv && !kvConsistent f.attributes
    then .error .KvConflict
    else .ok ()

/-- The ordered list of violated `check` invariants of a schema, each
contributing its specific error kind, in the fixed order of spec section 4.4.
Used to state that `check` reports exactly the first violation. -/
def violationList (f : ArraySchema) : List SchemaError :=
  (if f.domain.dims.isEmpty then [SchemaError.MissingDomain] else []) ++
  (match f.domain.validate f.array_type with
    | .error e => [e]
    | .ok () => []) ++
  (if namesUnique (f.attributes.map Attribute.name) then []
   else [SchemaError.DuplicateAttributeName]) ++
  (if f.array_type = .TILEDB_SPARSE && f.capacity = 0
   then [SchemaError.InvalidCapacity] else []) ++
  (if layoutValid f.tile_order && layoutValid f.cell_order then []
   else [SchemaError.InvalidLayout]) ++
  (if f.is_kv && !kvConsistent f.attributes then [SchemaError.KvConflict] else [])

/-- Failure of a mutator leaves the schema in its last valid state (spec
section 7 propagation policy): running a mutation keeps the prior schema on
error. -/
def runMutation (f : ArraySchema) (r : Except SchemaError ArraySchema) : ArraySchema :=
  match r with
  | .ok g => g
  | .error _ => f

/-- Modelled from the spec: the external storage engine's catalog, a mapping
from URIs to persisted schema field sets (the on-disk format is opaque and
owned by the engine; the contract is that the field set round-trips
unchanged). -/
def Store := List (String × ArraySchema)

/-- `ArraySchema::create(uri)`: modelled from the spec — requires `check` to
pass (invoked internally), fails with an engine-reported error when an array
is already registered at `uri`, otherwise persists the schema's field set at
`uri`. -/
def ArraySchema.create (f : ArraySchema) (st : Store) (uri : String) :
    Except SchemaError Store :=
  match f.check with
  | .error e => .error e
  | .ok () =>
    if (st.map Prod.fst).contains uri
    then .error .EngineError
    else .ok ((uri, f) :: st)

/-- `ArraySchema::load(uri)`: modelled from the spec — reconstructs the
schema from the persisted definition at `uri`, or surfaces the
engine-reported failure when no array is registered there. -/
def loadSchema (st : Store) (uri : String) : Except SchemaError ArraySchema :=
  match st.find? (fun p => p.1 = uri) with
  | some p => .ok p.2
  | none => .error .EngineError

/-- The opaque C engine handle `tiledb_array_schema_t`; only its identity
matters at this layer. -/
structure CSchema where
  id : Nat
deriving DecidableEq, Repr

/-- The handle state of a `tdb::ArraySchema` object: the `_schema` shared
pointer is either null (unbound) or wraps a concrete C schema handle (header
line 244). -/
structure ArraySchemaHandle where
  _schema : Option CSchema
deriving DecidableEq, Repr

/-- `ArraySchema::good` (header line 229): true iff an underlying
`tiledb_schema` object exists; the body is modelled from the header's doc
comment as non-nullness of `_schema`. -/
def ArraySchemaHandle.good (h : ArraySchemaHandle) : Bool := h._schema.isSome

/-- `ArraySchema::ArraySchema(Context&)` (header line 56): constructs an
unbound schema; `_schema` is default-initialised to null. -/
def mkArraySchema : ArraySchemaHandle := { _schema := none }

/-- A `tiledb_array_schema_t**` argument: the outer `Option` is nullness of
the pointer itself, the inner `Option` nullness of the pointed-to handle. -/
abbrev CSchemaPtrPtr := Option (Option CSchema)

/-- `ArraySchema::ArraySchema(Context&, tiledb_array_schema_t**)` (header
lines 64-69): delegates to `ArraySchema(ctx)`, then, when the argument is
non-null and points to a non-null handle, adopts the handle (`_init`, which
takes ownership into `_schema`) and nulls the caller's pointee; otherwise
nothing happens.  Returns the constructed object and the argument's final
state. -/
def mkArraySchemaOwn (p : CSchemaPtrPtr) : ArraySchemaHandle × CSchemaPtrPtr :=
  match p with
  | some (some s) => ({ _schema := some s }, some none)
  | some none => (mkArraySchema, some none)
  | none => (mkArraySchema, none)

/-- `operator<<(ArraySchema&, const Domain&)` (header line 248): modelled
from the spec — performs the corresponding mutator `set_domain` and yields
the same schema handle. -/
def appendDomain (f : ArraySchema) (d : Domain) : Except SchemaError ArraySchema :=
  f.set_domain d

/-- `operator<<(ArraySchema&, const Attribute&)` (header line 249): modelled
from the spec — performs the corresponding mutator `add_attribute` and yields
the same schema handle. -/
def appendAttribute (f : ArraySchema) (a : Attribute) : Except SchemaError ArraySchema :=
  f.add_attribute a

/-- `operator<<(ArraySchema&, const tiledb_array_type_t)` (header line 250):
modelled from the spec — performs the corresponding mutator `set_type` and
yields the same schema handle. -/
def appendType (f : ArraySchema) (t : tiledb_array_type_t) : ArraySchema :=
  f.set_type t

/-- `operator<<(ArraySchema&, const std::array<tiledb_layout_t, 2>)` (header
line 251): modelled from the spec — performs the corresponding mutator
`set_order` and yields the same schema handle. -/
def appendOrder (f : ArraySchema) (p : tiledb_layout_t × tiledb_layout_t) :
    Except SchemaError ArraySchema :=
  f.set_order p

/-- `operator<<(ArraySchema&, uint64_t)` (header line 252): modelled from the
spec — performs the corresponding mutator `set_capacity` and yields the same
schema handle. -/
def appendCapacity (f : ArraySchema) (c : Nat) : ArraySchema :=
  f.set_capacity c

/-- A concrete dimension with a tile extent, for witnesses. -/
def dimX : Dimension :=
  { name := "x", datatype := .INT32, lo := 0, hi := 99, tile_extent := some 10 }

/-- A concrete dimension without a tile extent, for witnesses. -/
def dimY : Dimension :=
  { name := "y", datatype := .INT32, lo := 0, hi := 99, tile_extent := none }

/-- A concrete one-dimension domain, for witnesses. -/
def domX : Domain := { dims := [dimX] }

/-- A concrete attribute, for witnesses. -/
def attrA : Attribute :=
  { name := "a", datatype := .INT32, cell_val_num := 1,
    compressor := { codec := .GZIP, level := 5 } }

/-- A concrete attribute distinct from `attrA` but with the same name, for
witnesses. -/
def attrA2 : Attribute :=
  { name := "a", datatype := .FLOAT64, cell_val_num := 1,
    compressor := { codec := .NONE, level := -1 } }

/-- A concrete attribute with a fresh name, for witnesses. -/
def attrB : Attribute :=
  { name := "b", datatype := .CHAR, cell_val_num := TILEDB_VAR_NUM,
    compressor := { codec := .LZ4, level := 3 } }

/-- A concrete fully valid sparse schema, for witnesses. -/
def sparseS : ArraySchema :=
  { array_type := .TILEDB_SPARSE, domain := domX, attributes := [attrA],
    capacity := 1000, tile_order := TILEDB_ROW_MAJOR,
    cell_order := TILEDB_COL_MAJOR,
    coord_compressor := { codec := .ZSTD, level := -1 },
    offset_compressor := { codec := .GZIP, level := 2 }, is_kv := false }

/-- C2: for every schema state, `check` fails on exactly the first violated
invariant in the fixed order — domain presence/non-emptiness, domain validity
for the array type, attribute name uniqueness, sparse capacity rule, layout
enum validity, kv consistency — reporting that violation's specific error
kind (deterministically, `check` being a pure function of the field set, and
with no mutation, `check` returning no modified schema); when no invariant is
violated it succeeds. -/
theorem check_reports_first_violation (f : ArraySchema) :
    f.check = (match (violationList f).head? with
      | none => Except.ok ()
      | some e => Except.error e) := by
  unfold ArraySchema.check violationList
  by_cases h1 : f.domain.dims = []
  · simp [h1]
  · rcases h2 : f.domain.validate f.array_type with e | u
    · simp [h1, h2]
    · by_cases h3 : namesUnique (List.map Attribute.name f.attributes) = true
      · by_cases h4 : f.array_type = .TILEDB_SPARSE ∧ f.capacity = 0
        · simp [h1, h2, h3, h4]
        · by_cases h5 : layoutValid f.tile_order = true ∧ layoutValid f.cell_order = true
          · by_cases h6 : f.is_kv = true ∧ kvConsistent f.attributes = false
            · simp [h1, h2, h3, h4, h5, h6]
            · simp [h1, h2, h3, h4, h5, h6]
          · simp [h1, h2, h3, h4, h5]
      · simp [h1, h2, h3]

/-- C1: persisting a validly constructed schema with `create(uri)` and
reconstructing it with `load(uri)` yields a schema whose every field —
array_type, domain, attributes, capacity, tile_order, cell_order,
coord_compressor, offset_compressor, is_kv — equals the corresponding field
of the original. -/
theorem create_load_round_trip (st : Store) (uri : String) (f : ArraySchema)
    (hchk : f.check = .ok ()) (hfresh : (st.map Prod.fst).contains uri = false) :
    ∃ st2, f.create st uri = .ok st2 ∧
      ∃ g, loadSchema st2 uri = .ok g ∧
        g.array_type = f.array_type ∧ g.domain = f.domain ∧
        g.attributes = f.attributes ∧ g.capacity = f.capacity ∧
        g.tile_order = f.tile_order ∧ g.cell_order = f.cell_order ∧
        g.coord_compressor = f.coord_compressor ∧
        g.offset_compressor = f.offset_compressor ∧ g.is_kv = f.is_kv := by
  refine ⟨(uri, f) :: st, ?_, f, ?_, rfl, rfl, rfl, rfl, rfl, rfl, rfl, rfl, rfl⟩
  · unfold ArraySchema.create
    have hc : ¬((st.map Prod.fst).contains uri = true) := by rw [hfresh]; simp
    rw [hchk, if_neg hc]
  · unfold loadSchema
    simp

/-- Witness for C1: the concrete valid sparse schema `sparseS` round-trips
through an empty store at uri "arr". -/
theorem create_load_round_trip_witness :
    sparseS.check = .ok () ∧
    (([] : Store).map Prod.fst).contains "arr" = false ∧
    (∃ st2, sparseS.create [] "arr" = .ok st2 ∧
      ∃ g, loadSchema st2 "arr" = .ok g ∧
        g.array_type = sparseS.array_type ∧ g.domain = sparseS.domain ∧
        g.attributes = sparseS.attributes ∧ g.capacity = sparseS.capacity ∧
        g.tile_order = sparseS.tile_order ∧ g.cell_order = sparseS.cell_order ∧
        g.coord_compressor = sparseS.coord_compressor ∧
        g.offset_compressor = sparseS.offset_compressor ∧
        g.is_kv = sparseS.is_kv) :=
  ⟨rfl, rfl, create_load_round_trip [] "arr" sparseS rfl rfl⟩

/-- C3: a `DENSE` schema whose domain contains a dimension without a tile
extent fails `check` with `MissingTileExtent`. -/
theorem dense_missing_extent_fails_check (f : ArraySchema)
    (ht : f.array_type = .TILEDB_DENSE)
    (hd : ∃ d ∈ f.domain.dims, d.tile_extent = none) :
    f.check = .error .MissingTileExtent := by
  obtain ⟨d, hmem, hext⟩ := hd
  have hany : f.domain.dims.any (fun dim => dim.tile_extent.isNone) = true := by
    rw [List.any_eq_true]
    exact ⟨d, hmem, by simp [hext]⟩
  have hne : f.domain.dims ≠ [] := by
    intro h
    rw [h] at hmem
    exact absurd hmem (List.not_mem_nil d)
  unfold ArraySchema.check
  simp [hne, Domain.validate, ht, hany]

/-- Witness for C3: a dense schema over a domain with the extent-less
dimension `dimY` fails `check` with `MissingTileExtent`. -/
theorem dense_missing_extent_fails_check_witness :
    ({ sparseS with
        array_type := .TILEDB_DENSE,
        domain := { dims := [dimY] } } : ArraySchema).check =
      .error .MissingTileExtent :=
  dense_missing_extent_fails_check _ rfl ⟨dimY, by simp, rfl⟩

/-- C4: on a `SPARSE` schema whose other fields are all valid, capacity 0
makes `check` fail with `InvalidCapacity`, and `set_capacity 100` on that
same schema makes `check` pass. -/
theorem sparse_capacity_rule (f : ArraySchema)
    (ht : f.array_type = .TILEDB_SPARSE)
    (hdom : f.domain.dims ≠ [])
    (huniq : namesUnique (f.attributes.map Attribute.name) = true)
    (hlt : layoutValid f.tile_order = true)
    (hlc : layoutValid f.cell_order = true)
    (hkv : f.is_kv = true → kvConsistent f.attributes = true) :
    (f.capacity = 0 → f.check = .error .InvalidCapacity) ∧
    (f.set_capacity 100).check = .ok () := by
  constructor
  · intro hcap
    unfold ArraySchema.check
    simp [hdom, Domain.validate, ht, huniq, hcap]
  · unfold ArraySchema.set_capacity ArraySchema.check
    by_cases hk : f.is_kv = true
    · simp [hdom, Domain.validate, ht, huniq, hlt, hlc, hk, hkv hk]
    · simp [hdom, Domain.validate, ht, huniq, hlt, hlc, hk]

/-- Witness for C4: `sparseS` with capacity 0 fails `check` with
`InvalidCapacity`, and `set_capacity 100` on it passes `check`. -/
theorem sparse_capacity_rule_witness :
    (({ sparseS with capacity := 0 } : ArraySchema).capacity = 0 →
      ({ sparseS with capacity := 0 } : ArraySchema).check =
        .error .InvalidCapacity) ∧
    (({ sparseS with capacity := 0 } : ArraySchema).set_capacity 100).check =
      .ok () :=
  sparse_capacity_rule _ rfl (by simp [sparseS, domX]) rfl rfl rfl
    (fun h => by simp [sparseS] at h)

/-- C6: a second `set_domain` on a schema already holding a non-empty domain
fails with `DomainAlreadySet` and leaves the stored domain unchanged; on a
schema without a domain, `set_domain` stores the given domain by value. -/
theorem set_domain_set_once (f : ArraySchema) (d : Domain) :
    (f.domain.dims ≠ [] →
      f.set_domain d = .error .DomainAlreadySet ∧
      (runMutation f (f.set_domain d)).domain = f.domain) ∧
    (f.domain.dims = [] → f.set_domain d = .ok { f with domain := d }) := by
  unfold ArraySchema.set_domain
  constructor
  · intro h
    have he : f.domain.dims.isEmpty = false := by
      cases hd : f.domain.dims with
      | nil => exact absurd hd h
      | cons a l => simp
    rw [he]
    exact ⟨rfl, rfl⟩
  · intro h
    have he : f.domain.dims.isEmpty = true := by simp [h]
    rw [he]
    rfl

/-- Witness for C6: `sparseS` holds the non-empty domain `domX`, so a second
`set_domain` fails and keeps `domX`; `freshSchema` has no domain, so
`set_domain` stores `domX`. -/
theorem set_domain_set_once_witness :
    (sparseS.set_domain { dims := [dimY] } = .error .DomainAlreadySet ∧
      (runMutation sparseS (sparseS.set_domain { dims := [dimY] })).domain =
        sparseS.domain) ∧
    freshSchema.set_domain domX = .ok { freshSchema with domain := domX } :=
  ⟨(set_domain_set_once sparseS { dims := [dimY] }).1 (by simp [sparseS, domX]),
   (set_domain_set_once freshSchema domX).2 rfl⟩

/-- C7: `set_order {tile, cell}` is all-or-nothing — when either layout value
is outside the valid enum range it fails with `InvalidLayout` and both
`tile_order` and `cell_order` keep their prior values; when both are valid,
both are stored. -/
theorem set_order_all_or_nothing (f : ArraySchema) (t c : tiledb_layout_t) :
    (¬(layoutValid t = true ∧ layoutValid c = true) →
      f.set_order (t, c) = .error .InvalidLayout ∧
      (runMutation f (f.set_order (t, c))).tile_order = f.tile_order ∧
      (runMutation f (f.set_order (t, c))).cell_order = f.cell_order) ∧
    (layoutValid t = true → layoutValid c = true →
      f.set_order (t, c) = .ok { f with tile_order := t, cell_order := c }) := by
  unfold ArraySchema.set_order
  constructor
  · intro h
    have hb : (layoutValid t && layoutValid c) = false := by
      cases hvt : layoutValid t <;> cases hvc : layoutValid c <;> simp_all
    rw [hb]
    exact ⟨rfl, rfl, rfl⟩
  · intro h1 h2
    simp [h1, h2]

/-- Witness for C7: on `sparseS`, `set_order (ROW_MAJOR, 7)` fails keeping
both orders, and `set_order (COL_MAJOR, UNORDERED)` stores both. -/
theorem set_order_all_or_nothing_witness :
    (sparseS.set_order (TILEDB_ROW_MAJOR, 7) = .error .InvalidLayout ∧
      (runMutation sparseS (sparseS.set_order (TILEDB_ROW_MAJOR, 7))).tile_order =
        sparseS.tile_order ∧
      (runMutation sparseS (sparseS.set_order (TILEDB_ROW_MAJOR, 7))).cell_order =
        sparseS.cell_order) ∧
    sparseS.set_order (TILEDB_COL_MAJOR, TILEDB_UNORDERED) =
      .ok { sparseS with tile_order := TILEDB_COL_MAJOR,
                         cell_order := TILEDB_UNORDERED } :=
  ⟨(set_order_all_or_nothing sparseS TILEDB_ROW_MAJOR 7).1 (by decide),
   (set_order_all_or_nothing sparseS TILEDB_COL_MAJOR TILEDB_UNORDERED).2
     (by decide) (by decide)⟩

/-- C8: `set_kv` on a schema with no attributes yields exactly the two
reserved key/value attributes and `is_kv = true`, and a subsequent
`add_attribute` with a non-reserved (custom) name fails with `KvConflict`. -/
theorem set_kv_fresh (f : ArraySchema) (hattrs : f.attributes = []) :
    ∃ g, f.set_kv = .ok g ∧
      g.attributes = [keyAttribute, valueAttribute] ∧
      g.is_kv' = true ∧
      ∀ a : Attribute, reservedKvNames.contains a.name = false →
        g.add_attribute a = .error .KvConflict := by
  refine ⟨{ f with
      is_kv := true,
      attributes := [keyAttribute, valueAttribute] }, ?_, rfl, rfl, ?_⟩
  · unfold ArraySchema.set_kv
    rw [hattrs]
    rfl
  · intro a ha
    have h1 : (List.map Attribute.name
        [keyAttribute, valueAttribute]).contains a.name = false := by
      simp only [keyAttribute, valueAttribute, reservedKvNames] at ha ⊢
      simpa using ha
    have ha2 : a.name ≠ "__key" ∧ a.name ≠ "__value" := by
      simpa [reservedKvNames] using ha
    unfold ArraySchema.add_attribute
    simp [h1, keyAttribute, valueAttribute, reservedKvNames, ha2.1, ha2.2]

/-- Witness for C8: `set_kv` on `freshSchema`. -/
theorem set_kv_fresh_witness :
    freshSchema.attributes = [] ∧
    ∃ g, freshSchema.set_kv = .ok g ∧
      g.attributes = [keyAttribute, valueAttribute] ∧
      g.is_kv' = true ∧
      ∀ a : Attribute, reservedKvNames.contains a.name = false →
        g.add_attribute a = .error .KvConflict :=
  ⟨rfl, set_kv_fresh freshSchema rfl⟩

/-- C9: each fluent append operation has the same observable behavior
(including failures) as the corresponding named mutator and yields the same
schema handle. -/
theorem append_ops_match_mutators (f : ArraySchema) (d : Domain) (a : Attribute)
    (t : tiledb_array_type_t) (p : tiledb_layout_t × tiledb_layout_t) (c : Nat) :
    appendDomain f d = f.set_domain d ∧
    appendAttribute f a = f.add_attribute a ∧
    appendType f t = f.set_type t ∧
    appendOrder f p = f.set_order p ∧
    appendCapacity f c = f.set_capacity c :=
  ⟨rfl, rfl, rfl, rfl, rfl⟩

/-- C10: the ownership-transferring constructor adopts a non-null handle
reached through a non-null pointer, nulling the caller's pointee, after which
`good()` is true; when the pointer is null or points to null, no adoption
occurs, the schema stays unbound with `good()` false — as for a freshly
constructed `ArraySchema(ctx)`. -/
theorem ctor_ownership_transfer (s : CSchema) :
    (mkArraySchemaOwn (some (some s))).1.good = true ∧
    (mkArraySchemaOwn (some (some s))).1._schema = some s ∧
    (mkArraySchemaOwn (some (some s))).2 = some none ∧
    (mkArraySchemaOwn (some none)).1.good = false ∧
    (mkArraySchemaOwn (some none)).2 = some none ∧
    (mkArraySchemaOwn none).1.good = false ∧
    (mkArraySchemaOwn none).2 = none ∧
    mkArraySchema.good = false :=
  ⟨rfl, rfl, rfl, rfl, rfl, rfl, rfl, rfl⟩

/-- C5 counterexample: on the key-value schema obtained by `set_kv` on a
fresh schema, the name "a" is fresh (no attribute carries it), yet
`add_attribute` rejects the attribute with `KvConflict` instead of adding it
— so "attributes with fresh names are added" does not hold for every schema. -/
theorem add_attribute_fresh_rejected_on_kv :
    ((runMutation freshSchema freshSchema.set_kv).attributes.map
        Attribute.name).contains attrA.name = false ∧
    (runMutation freshSchema freshSchema.set_kv).add_attribute attrA =
      .error .KvConflict :=
  ⟨rfl, rfl⟩

/-- C5 (amended): adding an attribute whose name duplicates an existing one
fails with `DuplicateAttributeName` and the attribute map is unchanged;
an attribute with a fresh name is added, unless the schema is in key-value
mode and the name is not reserved, in which case `add_attribute` fails with
`KvConflict` and the attribute is likewise not added. -/
theorem add_attribute_uniqueness (f : ArraySchema) (a : Attribute) :
    ((f.attributes.map Attribute.name).contains a.name = true →
      f.add_attribute a = .error .DuplicateAttributeName ∧
      (runMutation f (f.add_attribute a)).attributes = f.attributes) ∧
    ((f.attributes.map Attribute.name).contains a.name = false →
      (f.is_kv && !(reservedKvNames.contains a.name)) = false →
      f.add_attribute a = .ok { f with attributes := f.attributes ++ [a] }) ∧
    ((f.attributes.map Attribute.name).contains a.name = false →
      (f.is_kv && !(reservedKvNames.contains a.name)) = true →
      f.add_attribute a = .error .KvConflict ∧
      (runMutation f (f.add_attribute a)).attributes = f.attributes) := by
  unfold ArraySchema.add_attribute
  refine ⟨fun h => ?_, fun h hk => ?_, fun h hk => ?_⟩
  · rw [h]
    exact ⟨rfl, rfl⟩
  · rw [h, hk]
    rfl
  · rw [h, hk]
    exact ⟨rfl, rfl⟩

/-- Witness for C5 (amended): on `sparseS`, adding `attrA2` (name "a",
already present) fails with `DuplicateAttributeName` leaving the map
unchanged, and adding `attrB` (fresh name "b") succeeds. -/
theorem add_attribute_uniqueness_witness :
    ((sparseS.attributes.map Attribute.name).contains attrA2.name = true ∧
      sparseS.add_attribute attrA2 = .error .DuplicateAttributeName ∧
      (runMutation sparseS (sparseS.add_attribute attrA2)).attributes =
        sparseS.attributes) ∧
    ((sparseS.attributes.map Attribute.name).contains attrB.name = false ∧
      sparseS.add_attribute attrB =
        .ok { sparseS with attributes := sparseS.attributes ++ [attrB] }) :=
  ⟨⟨rfl, (add_attribute_uniqueness sparseS attrA2).1 rfl⟩,
   ⟨rfl, (add_attribute_uniqueness sparseS attrB).2.1 rfl rfl⟩⟩
